import Mathlib

set_option maxRecDepth 100000

/-!
# Verification of the post-operative triage webhook

Shallow embedding of the two handler variants of the repository:

* `src/api/postop.js` — weighted-sum triage score, clamped to `[0, 100]` and
  rounded, labels `low / moderate / high`, fire-and-forget SendGrid alert
  (variant A below);
* `src/unnamed/part_000` — additive integer keyword score, labels
  `routine / urgent / emergency`, awaited Telegram alert send (variant B below).

Modelling conventions:

* JavaScript numbers are modelled as exact rationals; the code never relies
  on float rounding near its thresholds for the properties proved here.  In
  the postop.js variant the result of `Number(...)` can be `NaN` (unparseable
  input), so its numeric fields are `Option ℚ` with `none` for `NaN` and the
  arithmetic propagates `NaN` as JavaScript does; in part_000 the only
  numeric field is compared once, where `NaN` behaves like an absent field.
* JavaScript strings are Lean `String`s; the literal-alternation regexes of the
  source are modelled as case-insensitive substring tests.
* The outcome of each external effect (database insert, outbound alert fetch)
  and an optional injected exception are explicit parameters of the handler
  functions, so that catch-blocks and fire-and-forget behaviour are visible.
* `Date.now()` / `new Date()` is an explicit `now : ℕ` parameter.
-/

/-! ## String containment (model of literal-alternation regex tests) -/

/-- `listIsPrefix n h` is true when the list `n` is an initial segment of `h`. -/
def listIsPrefix : List Char → List Char → Bool
  | [], _ => true
  | _ :: _, [] => false
  | n :: ns, h :: hs => n == h && listIsPrefix ns hs

/-- `listOccurs n h` is true when `n` occurs contiguously inside `h`. -/
def listOccurs (needle : List Char) : List Char → Bool
  | [] => listIsPrefix needle []
  | c :: cs => listIsPrefix needle (c :: cs) || listOccurs needle cs

/-- `strContains hay needle` models JavaScript `needle`-literal regex test. -/
def strContains (hay needle : String) : Bool :=
  listOccurs needle.toList hay.toList

/-- JavaScript `s.toLowerCase()` (character-wise; the phrases matched by the
source are already lower case, so ASCII case folding is faithful here). -/
def strToLower (s : String) : String := String.mk (s.toList.map Char.toLower)

/-- JavaScript `s.toUpperCase()` as used on the short ASCII level names. -/
def strToUpper (s : String) : String := String.mk (s.toList.map Char.toUpper)

/-- JavaScript `s.trim()`. -/
def strTrim (s : String) : String :=
  String.mk (((s.toList.dropWhile Char.isWhitespace).reverse.dropWhile
    Char.isWhitespace).reverse)

/-- JavaScript `s.slice(n)` for an ASCII-length prefix. -/
def strDrop (s : String) (n : ℕ) : String := String.mk (s.toList.drop n)

/-- JavaScript `s.slice(0, n)`. -/
def strTake (s : String) (n : ℕ) : String := String.mk (s.toList.take n)

/-- JavaScript `s.startsWith(p)`. -/
def strStarts (s p : String) : Bool := listIsPrefix p.toList s.toList

/-! ## Variant B: `src/unnamed/part_000` -/

/-- The request body fields that the part_000 handler reads.  `none` models an
absent field.  `temperature_c` is the numeric value of `postop.temperature_c`. -/
structure RawB where
  patient_id : Option String
  symptoms_text : Option String
  message_text : Option String
  temperature_c : Option ℚ
  bleeding : Option String
  breathing_difficulty : Option String
  deriving DecidableEq

/-- JavaScript `x || d` on strings: an absent or empty string falls through. -/
def jsOr (a : Option String) (d : String) : String :=
  match a with
  | some s => if s = "" then d else s
  | none => d

/-- `(postop.symptoms_text || payload.message_text || "").toLowerCase()`,
part_000 line 20. -/
def messageTextB (r : RawB) : String :=
  strToLower (jsOr r.symptoms_text (jsOr r.message_text ""))

/-- `postop.temperature_c && Number(postop.temperature_c) >= 38`, part_000
line 27 (a value `< 38` — in particular the falsy `0` — gives no boost). -/
def tempBoostB (r : RawB) : Bool :=
  match r.temperature_c with
  | some v => decide (38 ≤ v)
  | none => false

/-- The additive score of part_000 lines 22–29. -/
def scoreB (r : RawB) : ℕ :=
  let t := messageTextB r
  (if strContains t "chảy máu" || strContains t "bleeding" then 40 else 0)
  + (if strContains t "khó thở" || strContains t "shortness of breath"
        || strContains t "dyspnea" then 60 else 0)
  + (if strContains t "sốt" || strContains t "fever" then 25 else 0)
  + (if strContains t "mủ" || strContains t "purulence" || strContains t "pus"
        then 30 else 0)
  + (if tempBoostB r then 25 else 0)
  + (if r.bleeding = some "yes" then 40 else 0)
  + (if r.breathing_difficulty = some "yes" then 60 else 0)

/-- The threshold classification of part_000 lines 31–33. -/
def triageLevelB (score : ℕ) : String :=
  if 70 ≤ score then "emergency" else if 50 ≤ score then "urgent" else "routine"

/-- The patient-facing message of part_000 lines 35–42. -/
def botResponseB (level : String) : String :=
  if level = "emergency" then
    "Dạ bác ơi, theo mô tả hiện có dấu hiệu *khẩn cấp (emergency)*. Vui lòng gọi cấp cứu hoặc đến phòng khám/khối cấp cứu ngay. Chúng tôi đã thông báo cho bác sĩ trực."
  else if level = "urgent" then
    "Dạ có dấu hiệu cần khám sớm (urgent). Vui lòng đặt lịch trong 24 giờ hoặc chờ bác sĩ liên hệ. Hướng dẫn tạm thời: chườm lạnh, nghỉ ngơi."
  else
    "Dạ ổn (routine). Hiện chỉ cần chăm sóc tại nhà: rửa tay trước khi chạm, súc miệng nhẹ bằng nước muối 0.9% và theo dõi. Nếu sốt >38°C, chảy máu nhiều hoặc đau tăng thì báo ngay."

/-- The JSON body of the part_000 200-response, lines 62–67. -/
structure BodyB where
  triage_level : String
  triage_code : ℕ
  bot_response : String
  alert_sent : Bool
  alert_id : Option String
  deriving DecidableEq

/-- The client-visible responses the part_000 handler can produce. -/
inductive RespB where
  | methodNotAllowed
  | unauthorized
  | ok (body : BodyB)
  | internalError
  deriving DecidableEq

/-- HTTP status of each part_000 response. -/
def RespB.status : RespB → ℕ
  | .methodNotAllowed => 405
  | .unauthorized => 401
  | .ok _ => 200
  | .internalError => 500

/-- Environment configuration read by part_000; `""` models an unset variable
(`process.env.X || ""` and the truthiness test on `process.env.X`). -/
structure ConfigB where
  secret : String
  telegramToken : String
  doctorChat : String
  deriving DecidableEq

/-- Outcome of an awaited outbound `fetch`: the promise resolves (whatever the
HTTP status of the reply) or rejects (network failure / thrown error). -/
inductive SendOutcome where
  | resolves
  | rejects
  deriving DecidableEq

/-- A part_000 run: the response plus the text handed to the Telegram send,
`none` when no send was attempted. -/
structure OutB where
  resp : RespB
  telegramMsg : Option String
  deriving DecidableEq

/-- The Telegram alert text of part_000 line 53. -/
def telegramTextB (r : RawB) (level : String) (score : ℕ) : String :=
  "ALERT " ++ strToUpper level ++ " - " ++ jsOr r.patient_id "unknown"
  ++ "\nScore:" ++ toString score
  ++ "\nMsg:" ++ strTake (jsOr r.symptoms_text "") 200

/-- The body of part_000: `{}` when `req.body` is absent. -/
def emptyRawB : RawB := ⟨none, none, none, none, none, none⟩

/-- The triage level of a report, part_000 lines 22–33. -/
def levelB (r : RawB) : String := triageLevelB (scoreB r)

/-- The alert decision of part_000 line 44:
`alert_sent = (triage_level === "emergency" || triage_level === "urgent")`. -/
def alertWantedB (r : RawB) : Bool :=
  levelB r == "emergency" || levelB r == "urgent"

/-- The post-authentication path of part_000 (lines 16–67): triage, alert
decision, optional awaited Telegram send, 200-response.  A rejecting `fetch`
propagates to the `catch` (line 69) and yields the 500 response — the 200
response of line 62 is only reached after the `await` of line 54. -/
def processB (cfg : ConfigB) (r : RawB) (now : ℕ) (send : SendOutcome) : OutB :=
  let score := scoreB r
  let level := triageLevelB score
  let bot := botResponseB level
  let alertSent : Bool := level == "emergency" || level == "urgent"
  if alertSent then
    let alertId := "A" ++ toString now
    if cfg.telegramToken ≠ "" ∧ cfg.doctorChat ≠ "" then
      match send with
      | .rejects => ⟨.internalError, none⟩
      | .resolves =>
          ⟨.ok ⟨level, score, bot, true, some alertId⟩,
           some (telegramTextB r level score)⟩
    else ⟨.ok ⟨level, score, bot, true, some alertId⟩, none⟩
  else ⟨.ok ⟨level, score, bot, false, none⟩, none⟩

/-- Shallow embedding of the part_000 handler (lines 6–73).  `fault` injects
an exception thrown inside the `try` block before the triage computation;
`send` is the outcome of the awaited Telegram `fetch` (part_000 line 54),
which is reached only when an alert is wanted and both Telegram environment
variables are configured. -/
def handlerB (cfg : ConfigB) (method auth : String) (body : Option RawB)
    (now : ℕ) (fault : Option String) (send : SendOutcome) : OutB :=
  match fault with
  | some _ => ⟨.internalError, none⟩
  | none =>
    if method ≠ "POST" then ⟨.methodNotAllowed, none⟩
    else if auth = "" ∨ auth ≠ "Bearer " ++ cfg.secret then ⟨.unauthorized, none⟩
    else processB cfg (body.getD emptyRawB) now send

/-! ## Variant A: `src/api/postop.js` -/

/-- The result of JavaScript `Number(...)`: a rational, or `none` for `NaN`
(unparseable input such as `Number("severe")`). -/
abbrev JsNum := Option ℚ

/-- JavaScript `+` on possibly-NaN numbers: `NaN` propagates. -/
def jsAdd : JsNum → JsNum → JsNum
  | some a, some b => some (a + b)
  | _, _ => none

/-- JavaScript `*` on possibly-NaN numbers: `NaN` propagates. -/
def jsMul : JsNum → JsNum → JsNum
  | some a, some b => some (a * b)
  | _, _ => none

/-- `Math.max`: `NaN` when an argument is `NaN`. -/
def jsMax : JsNum → JsNum → JsNum
  | some a, some b => some (max a b)
  | _, _ => none

/-- `Math.min`: `NaN` when an argument is `NaN`. -/
def jsMin : JsNum → JsNum → JsNum
  | some a, some b => some (min a b)
  | _, _ => none

/-- Division by the non-zero literals of postop.js (10, 30): `NaN`
propagates. -/
def jsDiv : JsNum → ℚ → JsNum
  | some a, b => some (a / b)
  | none, _ => none

/-- JavaScript `x >= c` for a literal threshold: false when `x` is `NaN`. -/
def jsGE : JsNum → ℚ → Bool
  | some a, b => decide (b ≤ a)
  | none, _ => false

/-- `Math.round`: half-up on numbers, `NaN` on `NaN` (Mathlib `round` is also
half-up). -/
def jsRound : JsNum → Option ℤ
  | some q => some (round q)
  | none => none

/-- The fields the postop.js handler extracts from the request body (after the
synonym resolution of lines 54–69): `pain` is `Number(data.pain || …)`,
`bleedingRaw`/`pusRaw` are the raw lowercased strings before coercion,
`temp` is `Number(data.temp || …)`, `notes` the free text, `days_postop`
`Number(data.days_postop || …)`.  The numeric fields are `JsNum`: `none`
models the `NaN` that `Number` yields on unparseable input. -/
structure RawA where
  pain : JsNum
  bleedingRaw : String
  temp : JsNum
  pusRaw : String
  notes : String
  days_postop : JsNum
  patient_id : Option String
  deriving DecidableEq

/-- Bleeding coercion, postop.js line 64: `yes`/`active`/`true` become
`active`; any other non-empty string is kept; empty becomes `no`. -/
def coerceBleedingA (raw : String) : String :=
  let b := strToLower raw
  if b = "yes" ∨ b = "active" ∨ b = "true" then "active"
  else if b ≠ "" then b else "no"

/-- Purulence coercion, postop.js line 67: `yes`/`true` become `yes`; any
other non-empty string is kept; empty becomes `no`. -/
def coercePusA (raw : String) : String :=
  let p := strToLower raw
  if p = "yes" ∨ p = "true" then "yes" else if p ≠ "" then p else "no"

/-- `pain_norm`, postop.js line 73: `Math.min(Math.max(pain, 0), 10) / 10`
(`NaN` when the pain field did not parse). -/
def painNormA (pain : JsNum) : JsNum :=
  jsDiv (jsMin (jsMax pain (some 0)) (some 10)) 10

/-- `bleeding_flag`, postop.js line 74. -/
def bleedingFlagA (r : RawA) : ℚ :=
  if coerceBleedingA r.bleedingRaw = "active" then 1 else 0

/-- `fever_norm`, postop.js line 75: `temp ? … : 0`.  Both `0` and `NaN` are
falsy, so an unparseable or zero temperature contributes 0 — this value is
never `NaN`. -/
def feverNormA : JsNum → ℚ
  | some v => if v = 0 then 0 else max 0 (min ((v - 36) / 4) 1)
  | none => 0

/-- `pus_flag`, postop.js line 76. -/
def pusFlagA (r : RawA) : ℚ := if coercePusA r.pusRaw = "yes" then 1 else 0

/-- `days_factor`, postop.js line 77: `Math.min(Math.max(days/30, 0), 1)`
(`NaN` when the days field did not parse). -/
def daysFactorA (d : JsNum) : JsNum :=
  jsMin (jsMax (jsDiv d 30) (some 0)) (some 1)

/-- The weighted sum of postop.js line 79 (pain 40%, bleeding 20%, fever 20%,
pus 15%, days 5%); `NaN` when the pain or days contribution is `NaN`. -/
def scoreRawA (r : RawA) : JsNum :=
  jsAdd (jsAdd (jsAdd (jsAdd
    (jsMul (some 0.4) (jsMul (painNormA r.pain) (some 100)))
    (jsMul (some 0.2) (some (bleedingFlagA r * 100))))
    (jsMul (some 0.2) (some (feverNormA r.temp * 100))))
    (jsMul (some 0.15) (some (pusFlagA r * 100))))
    (jsMul (some 0.05) (jsMul (daysFactorA r.days_postop) (some 100)))

/-- `Math.round(Math.min(Math.max(score, 0), 100))`, postop.js line 80.
`none` (`NaN`) survives the clamp and the rounding; `res.json` serializes it
as `null` in the response. -/
def scoreA (r : RawA) : Option ℤ :=
  jsRound (jsMin (jsMax (scoreRawA r) (some 0)) (some 100))

/-- The threshold bands of postop.js line 83; a `NaN` score fails both `<=`
comparisons and falls through to `high`. -/
def baseLabelA : Option ℤ → String
  | some s => if s ≤ 30 then "low" else if s ≤ 60 then "moderate" else "high"
  | none => "high"

/-- The regex `/khó thở|khó nuốt|difficulty breathing|swallow/i` of postop.js
line 84, modelled as case-insensitive substring search. -/
def notesOverrideMatch (notes : String) : Bool :=
  let n := strToLower notes
  strContains n "khó thở" || strContains n "khó nuốt" ||
  strContains n "difficulty breathing" || strContains n "swallow"

/-- The override condition of postop.js line 84:
`pus_flag || bleeding_flag || pain >= 8 || temp >= 38 || regex(notes)`
(a `NaN` pain or temperature satisfies neither comparison). -/
def overrideA (r : RawA) : Bool :=
  decide (pusFlagA r ≠ 0) || decide (bleedingFlagA r ≠ 0)
  || jsGE r.pain 8 || jsGE r.temp 38 || notesOverrideMatch r.notes

/-- `label`, postop.js lines 83–86. -/
def labelA (r : RawA) : String :=
  if overrideA r then "high" else baseLabelA (scoreA r)

/-- The patient-facing message of postop.js lines 110–117, a pure lookup on
the label. -/
def patientMessageA (label : String) : String :=
  if label = "low" then
    "Cảm ơn. Theo mô tả là triệu chứng nhẹ (Low). Tiếp tục theo dõi, dùng thuốc giảm đau theo toa. Nếu nặng hơn trong 48 giờ, vui lòng upload ảnh hoặc liên hệ lại."
  else if label = "moderate" then
    "Theo mô tả có triệu chứng cần khám sớm (Moderate). Vui lòng gửi ảnh vết mổ nếu có; bộ phận y tế sẽ liên hệ để sắp xếp lịch khám."
  else
    "CẢNH BÁO: Theo thông tin có dấu hiệu cần xử trí khẩn (High). Xin đến cơ sở y tế gần nhất hoặc gọi hotline. Bác sĩ đã nhận báo động. (English: Possible urgent issue — seek immediate care.)"

/-- The record built on postop.js lines 89–93 and handed to the DB insert and
to `sendAlertEmail`; `created_at` is the request timestamp. -/
structure RecordA where
  patient_id : Option String
  pain : JsNum
  bleeding : String
  temp : JsNum
  pus : String
  notes : String
  score : Option ℤ
  label : String
  created_at : ℕ
  deriving DecidableEq

/-- Build the record of postop.js lines 89–93 from the extracted fields. -/
def recordA (r : RawA) (score : Option ℤ) (label : String) (now : ℕ) :
    RecordA :=
  ⟨r.patient_id, r.pain, coerceBleedingA r.bleedingRaw, r.temp,
   coercePusA r.pusRaw, r.notes, score, label, now⟩

/-- The JSON body of the postop.js 200-response, line 125 (`score = none`
models the `null` that `res.json` makes of a `NaN` score). -/
structure BodyA where
  recordId : Option ℕ
  score : Option ℤ
  label : String
  patientMessage : String
  deriving DecidableEq

/-- The client-visible responses the postop.js handler can produce.
`internalError msg` is the 500 body of line 129, whose `error` field is
`err?.message || 'Internal error'`. -/
inductive RespA where
  | methodNotAllowed
  | serverMisconfig
  | unauthorized
  | emptyBody
  | ok (body : BodyA)
  | internalError (errorMsg : String)
  deriving DecidableEq

/-- HTTP status of each postop.js response. -/
def RespA.status : RespA → ℕ
  | .methodNotAllowed => 405
  | .serverMisconfig => 500
  | .unauthorized => 401
  | .emptyBody => 400
  | .ok _ => 200
  | .internalError _ => 500

/-- A postop.js run: the response plus the record handed to the fire-and-forget
`sendAlertEmail` (postop.js line 121), `none` when no alert was initiated. -/
structure OutA where
  resp : RespA
  alertPayload : Option RecordA
  deriving DecidableEq

/-- The success path of postop.js lines 53–125: score, label, DB save (its
outcome `dbId` is an explicit parameter: errors are swallowed on line 104),
message selection, and the fire-and-forget alert initiation for `high`.
The alert send outcome `send` is discarded by the `.catch` of line 121 and
can never influence the response. -/
def processA (r : RawA) (dbId : Option ℕ) (now : ℕ) (send : SendOutcome) :
    OutA :=
  let score := scoreA r
  let label := labelA r
  let record := recordA r score label now
  let msg := patientMessageA label
  { resp := .ok ⟨dbId, score, label, msg⟩
    alertPayload := if label = "high" then some record else none }

/-- The bearer-token extraction of postop.js line 40: accept `Bearer token`
or a raw token. -/
def tokenA (authHeader : String) : String :=
  let ah := strTrim authHeader
  if strStarts ah "Bearer " then strTrim (strDrop ah 7) else ah

/-- Shallow embedding of the postop.js handler (lines 24–131).  `secret` is
the raw `SECRET_TOKEN` environment value (`env` trims it, line 10), `fault`
injects an exception thrown inside the `try` block, and `body = none` models
an absent or empty JSON body (line 47). -/
def handlerA (secret method authHeader : String) (body : Option RawA)
    (dbId : Option ℕ) (now : ℕ) (fault : Option String) (send : SendOutcome) :
    OutA :=
  match fault with
  | some m => ⟨.internalError (if m = "" then "Internal error" else m), none⟩
  | none =>
    if method ≠ "POST" then ⟨.methodNotAllowed, none⟩
    else if strTrim secret = "" then ⟨.serverMisconfig, none⟩
    else if tokenA authHeader = "" ∨ tokenA authHeader ≠ strTrim secret then
      ⟨.unauthorized, none⟩
    else
      match body with
      | none => ⟨.emptyBody, none⟩
      | some r => processA r dbId now send

/-! ## Helper lemmas -/

/-- A request that passes the postop.js method, secret and token checks
reaches the triage path. -/
theorem handlerA_success (secret auth : String) (r : RawA) (dbId : Option ℕ)
    (now : ℕ) (send : SendOutcome) (hs : strTrim secret ≠ "")
    (h1 : tokenA auth ≠ "") (h2 : tokenA auth = strTrim secret) :
    handlerA secret "POST" auth (some r) dbId now none send
      = processA r dbId now send := by
  simp only [handlerA]
  rw [if_neg (by simp), if_neg hs, if_neg (by push_neg; exact ⟨h1, h2⟩)]

/-- When the Telegram channel is not fully configured, the part_000 triage
path returns the 200 body — with `alert_sent` equal to the alert decision —
and performs no send. -/
theorem processB_no_telegram (cfg : ConfigB) (r : RawB) (now : ℕ)
    (send : SendOutcome)
    (hcfg : ¬ (cfg.telegramToken ≠ "" ∧ cfg.doctorChat ≠ "")) :
    processB cfg r now send
      = ⟨.ok ⟨levelB r, scoreB r, botResponseB (levelB r), alertWantedB r,
          if alertWantedB r then some ("A" ++ toString now) else none⟩,
         none⟩ := by
  have e : (triageLevelB (scoreB r) == "emergency"
      || triageLevelB (scoreB r) == "urgent") = alertWantedB r := rfl
  simp only [processB, e]
  cases halert : alertWantedB r with
  | false => simp [levelB]
  | true =>
      rw [if_pos rfl, if_neg hcfg]
      simp [levelB]

/-! ## C1: score bounds -/

/-- part_000 report carrying every textual keyword and structured flag. -/
def rBfull : RawB :=
  ⟨none, some "chảy máu khó thở sốt mủ", none, some 39, some "yes", some "yes"⟩

/-- postop.js report with pain 9 and everything else at its default. -/
def rApain9 : RawA := ⟨some 9, "", some 0, "", "", some 0, none⟩

/-- C1 (counterexample): in the part_000 variant, a report that matches every
keyword rule and sets every structured flag is answered with `triage_code`
280 — the score returned to the client is not bounded by 100 there. -/
theorem C1_counterexample :
    (handlerB ⟨"s", "", ""⟩ "POST" "Bearer s" (some rBfull) 0 none
        .resolves).resp
      = .ok ⟨"emergency", 280, botResponseB "emergency", true, some "A0"⟩
    ∧ ¬ scoreB rBfull ≤ 100 := by decide

/-- postop.js report whose pain field did not parse (`Number("severe") =
NaN`), every other signal at its default. -/
def rAnan : RawA := ⟨none, "", some 0, "", "", some 0, none⟩

/-- C1 (amended): in the postop.js variant, whenever the score is a number it
is an integer in `[0, 100]` (clamped, then rounded); but an unparseable
numeric field makes the score `NaN` — returned to the client as `null`, with
the label falling through to `high`.  In the part_000 variant the score is an
unclamped non-negative integer sum of contributions, bounded only by 280. -/
theorem C1_amended_bounds :
    (∀ (r : RawA) (z : ℤ), scoreA r = some z → 0 ≤ z ∧ z ≤ 100)
    ∧ (processA rAnan none 0 .resolves).resp
        = .ok ⟨none, none, "high", patientMessageA "high"⟩
    ∧ (∀ r : RawB, scoreB r ≤ 280) := by
  refine ⟨?_, by decide, ?_⟩
  · intro r z hz
    simp only [scoreA] at hz
    cases hq : scoreRawA r with
    | none => rw [hq] at hz; simp [jsMax, jsMin, jsRound] at hz
    | some q =>
        rw [hq] at hz
        simp only [jsMax, jsMin, jsRound, Option.some.injEq] at hz
        subst hz
        have h0 : (0:ℚ) ≤ min (max q 0) 100 :=
          le_min (le_max_right _ _) (by norm_num)
        have h100 : min (max q 0) 100 ≤ 100 := min_le_right _ _
        constructor
        · rw [round_eq]
          exact Int.le_floor.mpr (by push_cast; linarith)
        · rw [round_eq]
          calc ⌊min (max q 0) 100 + 1/2⌋
              ≤ ⌊(100:ℚ) + 1/2⌋ := Int.floor_le_floor (by linarith)
            _ = 100 := by norm_num
  · intro r
    simp only [scoreB]
    split_ifs <;> omega

/-- C1 (witness): the parsed pain-9 report scores 36, inside the bounds. -/
theorem C1_witness :
    scoreA rApain9 = some 36 ∧ (0 ≤ (36:ℤ) ∧ (36:ℤ) ≤ 100) := by
  have h1 : bleedingFlagA rApain9 = 0 := by decide
  have h2 : pusFlagA rApain9 = 0 := by decide
  have hpain : rApain9.pain = some 9 := rfl
  have htemp : rApain9.temp = some 0 := rfl
  have hdays : rApain9.days_postop = some 0 := rfl
  have hs : scoreA rApain9 = some 36 := by
    simp only [scoreA, scoreRawA, painNormA, daysFactorA, feverNormA, jsDiv,
      jsMin, jsMax, jsMul, jsAdd, jsRound, h1, h2, hpain, htemp, hdays,
      Option.some.injEq]
    rw [round_eq]; norm_num [min_def, max_def]
  exact ⟨hs, C1_amended_bounds.1 rApain9 36 hs⟩

/-! ## C2: hard overrides -/

/-- part_000 report with only the structured bleeding flag set. -/
def rBbleed : RawB := ⟨none, none, none, none, some "yes", none⟩

/-- C2 (counterexample): in the part_000 variant the active-bleeding flag is
not a hard override: alone it only contributes 40 points and the report is
classified `routine`, not the top tier. -/
theorem C2_counterexample :
    (handlerB ⟨"s", "", ""⟩ "POST" "Bearer s" (some rBbleed) 0 none
        .resolves).resp
      = .ok ⟨"routine", 40, botResponseB "routine", false, none⟩
    ∧ "routine" ≠ "emergency" := by decide

/-- C2 (amended): in the postop.js variant, each override condition — active
bleeding, pain ≥ 8, temperature ≥ 38, or a matching free-text phrase —
forces the label `high` regardless of every other field (part_000 has no
hard overrides: its flags only add points). -/
theorem C2_amended_overrides (r : RawA)
    (h : bleedingFlagA r ≠ 0 ∨ jsGE r.pain 8 = true ∨ jsGE r.temp 38 = true
      ∨ notesOverrideMatch r.notes = true) :
    labelA r = "high" := by
  have ho : overrideA r = true := by
    simp only [overrideA, Bool.or_eq_true, decide_eq_true_eq]
    rcases h with h | h | h | h
    · exact Or.inl (Or.inl (Or.inl (Or.inr h)))
    · exact Or.inl (Or.inl (Or.inr h))
    · exact Or.inl (Or.inr h)
    · exact Or.inr h
  simp [labelA, ho]

/-- C2 (witness): the pain-9 report triggers the pain override. -/
theorem C2_witness : jsGE rApain9.pain 8 = true ∧ labelA rApain9 = "high" :=
  ⟨by decide, C2_amended_overrides rApain9 (Or.inr (Or.inl (by decide)))⟩

/-! ## C3: alert decision versus severity tier -/

/-- postop.js report with pain 7 and temperature 37.5: score 36, no override. -/
def rA36 : RawA := ⟨some 7, "", some 37.5, "", "", some 0, none⟩

/-- C3 (counterexample): in the postop.js variant a report classified
`moderate` — the second-highest of its three tiers — triggers no alert:
the email is initiated only for the single top tier `high`. -/
theorem C3_counterexample :
    handlerA "s" "POST" "Bearer s" (some rA36) none 0 none .resolves
      = ⟨.ok ⟨none, some 36, "moderate", patientMessageA "moderate"⟩, none⟩
    ∧ "moderate" ≠ "high" := by
  have h1 : bleedingFlagA rA36 = 0 := by decide
  have h2 : pusFlagA rA36 = 0 := by decide
  have hover : overrideA rA36 = false := by
    have h3 : jsGE rA36.pain 8 = false := by decide
    have h4 : jsGE rA36.temp 38 = false := by
      simp only [rA36, jsGE]
      rw [decide_eq_false_iff_not]
      norm_num
    have h5 : notesOverrideMatch rA36.notes = false := by decide
    simp [overrideA, h1, h2, h3, h4, h5]
  have hscore : scoreA rA36 = some 36 := by
    have hpain : rA36.pain = some 7 := rfl
    have htemp : rA36.temp = some 37.5 := rfl
    have hdays : rA36.days_postop = some 0 := rfl
    simp only [scoreA, scoreRawA, painNormA, feverNormA, daysFactorA, jsDiv,
      jsMin, jsMax, jsMul, jsAdd, jsRound, h1, h2, hpain, htemp, hdays,
      Option.some.injEq]
    rw [round_eq]; norm_num [min_def, max_def]
  have hlabel : labelA rA36 = "moderate" := by
    simp only [labelA, hover, hscore]; decide
  refine ⟨?_, by decide⟩
  rw [handlerA_success "s" "Bearer s" rA36 none 0 .resolves (by decide)
    (by decide) (by decide)]
  simp only [processA, hscore, hlabel]
  rw [if_neg (by decide)]

/-- C3 (amended): the alert decision is variant-specific.  In postop.js an
alert is initiated exactly when the label is the top tier `high` (never for
`moderate`); in part_000 every 200-response carries
`alert_sent = (level == emergency or level == urgent)`, the top two tiers. -/
theorem C3_amended_alert :
    (∀ (r : RawA) (dbId : Option ℕ) (now : ℕ) (send : SendOutcome),
      (processA r dbId now send).alertPayload.isSome = decide (labelA r = "high"))
    ∧ (∀ (cfg : ConfigB) (r : RawB) (now : ℕ) (send : SendOutcome) (b : BodyB),
      (processB cfg r now send).resp = .ok b →
        b.alert_sent = (b.triage_level == "emergency"
          || b.triage_level == "urgent")) := by
  constructor
  · intro r dbId now send
    simp only [processA]
    by_cases h : labelA r = "high" <;> simp [h]
  · intro cfg r now send b h
    simp only [processB] at h
    split at h
    case isTrue hc =>
      split at h
      · cases send with
        | rejects => simp at h
        | resolves =>
            simp only at h
            cases h
            simpa using hc.symm
      · simp only at h
        cases h
        simpa using hc.symm
    case isFalse hc =>
      simp only at h
      cases h
      simpa using (Bool.not_eq_true _).mp hc

/-- C3 (witness): the bleeding-only part_000 report is answered `routine`
with `alert_sent = false`, matching the decision rule. -/
theorem C3_witness :
    ((⟨"routine", 40, botResponseB "routine", false, none⟩ : BodyB).alert_sent
      = ((⟨"routine", 40, botResponseB "routine", false, none⟩ : BodyB).triage_level == "emergency"
        || (⟨"routine", 40, botResponseB "routine", false, none⟩ : BodyB).triage_level == "urgent")) :=
  C3_amended_alert.2 ⟨"s", "", ""⟩ rBbleed 0 .resolves _ (by decide)

/-! ## C4: alert failure must not change the response -/

/-- part_000 report whose structured flags alone reach the emergency tier. -/
def rBemer : RawB := ⟨none, none, none, none, some "yes", some "yes"⟩

/-- C4 (code bug): in part_000 the Telegram `fetch` is awaited inside the
`try` block, so a rejecting send turns the already-computed triage result
into a 500 — while the identical request with a resolving send gets the 200.
In postop.js the send outcome can never change the handler output. -/
theorem C4_bug :
    (handlerB ⟨"s", "tok", "chat"⟩ "POST" "Bearer s" (some rBemer) 0 none
        .rejects).resp = .internalError
    ∧ RespB.status .internalError = 500
    ∧ (handlerB ⟨"s", "tok", "chat"⟩ "POST" "Bearer s" (some rBemer) 0 none
        .resolves).resp
      = .ok ⟨"emergency", 100, botResponseB "emergency", true, some "A0"⟩
    ∧ RespB.status (.ok ⟨"emergency", 100, botResponseB "emergency", true,
        some "A0"⟩) = 200
    ∧ ∀ (secret method ah : String) (body : Option RawA) (dbId : Option ℕ)
        (now : ℕ) (fault : Option String) (s₁ s₂ : SendOutcome),
        handlerA secret method ah body dbId now fault s₁
          = handlerA secret method ah body dbId now fault s₂ := by
  refine ⟨by decide, rfl, by decide, rfl, ?_⟩
  intro secret method ah body dbId now fault s₁ s₂
  cases fault with
  | some m => rfl
  | none =>
      simp only [handlerA]
      split_ifs <;> rfl

/-! ## C5: fail closed on a missing secret -/

/-- C5 (code bug): with `SECRET_TOKEN` unset, part_000 never answers 500;
worse, the header `Bearer ` (empty token) passes its equality check and the
request is fully processed — fail open.  A wrong token gets 401, not 500.
postop.js does fail closed with a 500. -/
theorem C5_bug :
    (handlerB ⟨"", "", ""⟩ "POST" "Bearer " none 0 none .resolves).resp
      = .ok ⟨"routine", 0, botResponseB "routine", false, none⟩
    ∧ ((handlerB ⟨"", "", ""⟩ "POST" "Bearer " none 0 none .resolves).resp).status
      = 200
    ∧ (handlerB ⟨"", "", ""⟩ "POST" "Bearer wrong" none 0 none .resolves).resp
      = .unauthorized
    ∧ (handlerA "" "POST" "Bearer x" none none 0 none .resolves).resp
      = .serverMisconfig
    ∧ RespA.status .serverMisconfig = 500 := by decide

/-! ## C6: generic 500 body -/

/-- C6 (code bug): postop.js puts the exception's own message into the
client-visible 500 body (`err?.message || 'Internal error'`), so the body is
not independent of the fault; part_000 always answers the fixed generic
body. -/
theorem C6_bug :
    handlerA "s" "POST" "Bearer s" none none 0 (some "boom") .resolves
      = ⟨.internalError "boom", none⟩
    ∧ "boom" ≠ "Internal error"
    ∧ ∀ m₁ m₂ : String,
        handlerB ⟨"s", "", ""⟩ "POST" "Bearer s" none 0 (some m₁) .resolves
          = handlerB ⟨"s", "", ""⟩ "POST" "Bearer s" none 0 (some m₂) .resolves := by
  exact ⟨by decide, by decide, fun m₁ m₂ => rfl⟩

/-! ## C7: temperature 38.5 scenario -/

/-- postop.js report with temperature 38.5 and every other signal default. -/
def rAtemp : RawA := ⟨some 0, "", some 38.5, "", "", some 0, none⟩

/-- part_000 report with temperature 38.5 and every other signal default. -/
def rBtemp : RawB := ⟨none, none, none, some 38.5, none, none⟩

/-- With temperature 38.5 the postop.js override `temp >= 38` fires. -/
theorem rAtemp_label : labelA rAtemp = "high" := by
  have ho : overrideA rAtemp = true := by
    simp only [overrideA, Bool.or_eq_true, decide_eq_true_eq]
    refine Or.inl (Or.inr ?_)
    simp only [rAtemp, jsGE]
    rw [decide_eq_true_eq]
    norm_num
  simp [labelA, ho]

/-- The postop.js fever contribution at 38.5 °C alone: 0.2·62.5 rounds
to 13. -/
theorem rAtemp_score : scoreA rAtemp = some 13 := by
  have h1 : bleedingFlagA rAtemp = 0 := by decide
  have h2 : pusFlagA rAtemp = 0 := by decide
  have hpain : rAtemp.pain = some 0 := rfl
  have htemp : rAtemp.temp = some 38.5 := rfl
  have hdays : rAtemp.days_postop = some 0 := rfl
  simp only [scoreA, scoreRawA, painNormA, feverNormA, daysFactorA, jsDiv,
    jsMin, jsMax, jsMul, jsAdd, jsRound, h1, h2, hpain, htemp, hdays,
    Option.some.injEq]
  rw [round_eq]; norm_num [min_def, max_def]

/-- The part_000 score at 38.5 °C alone is just the +25 fever boost. -/
theorem rBtemp_score : scoreB rBtemp = 25 := by
  have htb : (if tempBoostB rBtemp then (25:ℕ) else 0) = 25 := by
    have : tempBoostB rBtemp = true := by
      simp only [tempBoostB, rBtemp, decide_eq_true_eq]
      norm_num
    rw [this]; rfl
  have hk1 : (if strContains (messageTextB rBtemp) "chảy máu"
      || strContains (messageTextB rBtemp) "bleeding" then (40:ℕ) else 0)
      = 0 := by decide
  have hk2 : (if strContains (messageTextB rBtemp) "khó thở"
      || strContains (messageTextB rBtemp) "shortness of breath"
      || strContains (messageTextB rBtemp) "dyspnea" then (60:ℕ) else 0)
      = 0 := by decide
  have hk3 : (if strContains (messageTextB rBtemp) "sốt"
      || strContains (messageTextB rBtemp) "fever" then (25:ℕ) else 0)
      = 0 := by decide
  have hk4 : (if strContains (messageTextB rBtemp) "mủ"
      || strContains (messageTextB rBtemp) "purulence"
      || strContains (messageTextB rBtemp) "pus" then (30:ℕ) else 0)
      = 0 := by decide
  have hbl : (if rBtemp.bleeding = some "yes" then (40:ℕ) else 0) = 0 := by
    decide
  have hbr : (if rBtemp.breathing_difficulty = some "yes" then (60:ℕ) else 0)
      = 0 := by decide
  simp only [scoreB, hk1, hk2, hk3, hk4, htb, hbl, hbr]

/-- C7 (counterexample): with temperature 38.5 and all other signals default,
postop.js classifies `high` — the top tier, not the second one (its `temp >=
38` override fires); part_000 classifies `routine`, the bottom tier.  In
neither variant does the report land in the second tier. -/
theorem C7_counterexample :
    labelA rAtemp = "high" ∧ "high" ≠ "moderate"
    ∧ levelB rBtemp = "routine" ∧ "routine" ≠ "urgent" := by
  refine ⟨rAtemp_label, by decide, ?_, by decide⟩
  simp only [levelB, rBtemp_score]; decide

/-- C7 (amended): with temperature 38.5 and all else default, postop.js
applies the fever contribution (score 13) but its `temp >= 38` override
forces the top label `high`; part_000 applies only the +25 fever boost
(score 25) and stays at the bottom level `routine`. -/
theorem C7_amended :
    scoreA rAtemp = some 13 ∧ labelA rAtemp = "high"
    ∧ scoreB rBtemp = 25 ∧ levelB rBtemp = "routine" := by
  refine ⟨rAtemp_score, rAtemp_label, rBtemp_score, ?_⟩
  simp only [levelB, rBtemp_score]; decide

/-! ## C8: determinism of scoring and classification -/

/-- The score, level and message carried by a part_000 response. -/
def scoreLevelMsgB : RespB → Option (String × ℕ × String)
  | .ok b => some (b.triage_level, b.triage_code, b.bot_response)
  | _ => none

/-- C8: both handlers are deterministic functions of their inputs, and the
request timestamp never influences the score, level or patient message —
in postop.js the whole response is timestamp-independent, and in part_000
only the `alert_id` (and the alert payload) can mention the clock. -/
theorem C8_determinism :
    (∀ (secret method ah : String) (body : Option RawA) (dbId : Option ℕ)
      (t₁ t₂ : ℕ) (fault : Option String) (send : SendOutcome),
      (handlerA secret method ah body dbId t₁ fault send).resp
        = (handlerA secret method ah body dbId t₂ fault send).resp)
    ∧ (∀ (cfg : ConfigB) (method auth : String) (body : Option RawB)
      (t₁ t₂ : ℕ) (fault : Option String) (send : SendOutcome),
      scoreLevelMsgB (handlerB cfg method auth body t₁ fault send).resp
        = scoreLevelMsgB (handlerB cfg method auth body t₂ fault send).resp) := by
  constructor
  · intro secret method ah body dbId t₁ t₂ fault send
    cases fault with
    | some m => rfl
    | none =>
        simp only [handlerA]
        split_ifs <;> try rfl
        cases body <;> rfl
  · intro cfg method auth body t₁ t₂ fault send
    cases fault with
    | some m => rfl
    | none =>
        simp only [handlerB, processB]
        split_ifs <;> try rfl
        cases send <;> rfl

/-! ## C9: purulence is an additional hard override in postop.js -/

/-- postop.js report with only the purulence field set to `yes`. -/
def rApus : RawA := ⟨some 0, "", some 0, "yes", "", some 0, none⟩

/-- C9: whenever the pus field coerces to `yes`, postop.js forces the label
`high`, although the purulence contribution alone is only 15 points — deep
inside the `low` band. -/
theorem C9_pus_override :
    (∀ r : RawA, coercePusA r.pusRaw = "yes" → labelA r = "high")
    ∧ scoreA rApus = some 15 ∧ baseLabelA (scoreA rApus) = "low" := by
  have hs : scoreA rApus = some 15 := by
    have h1 : bleedingFlagA rApus = 0 := by decide
    have h2 : pusFlagA rApus = 1 := by decide
    have hpain : rApus.pain = some 0 := rfl
    have htemp : rApus.temp = some 0 := rfl
    have hdays : rApus.days_postop = some 0 := rfl
    simp only [scoreA, scoreRawA, painNormA, feverNormA, daysFactorA, jsDiv,
      jsMin, jsMax, jsMul, jsAdd, jsRound, h1, h2, hpain, htemp, hdays,
      Option.some.injEq]
    rw [round_eq]; norm_num [min_def, max_def]
  refine ⟨?_, hs, by rw [hs]; decide⟩
  intro r h
  have ho : overrideA r = true := by
    simp only [overrideA, Bool.or_eq_true, decide_eq_true_eq]
    exact Or.inl (Or.inl (Or.inl (Or.inl (by simp [pusFlagA, h]))))
  simp [labelA, ho]

/-- C9 (witness): the pus-only report is labelled `high`. -/
theorem C9_witness : coercePusA rApus.pusRaw = "yes" ∧ labelA rApus = "high" :=
  ⟨by decide, C9_pus_override.1 rApus (by decide)⟩

/-! ## C10: `alert_sent` reports the decision, not the delivery -/

/-- C10: when the Telegram bot token or the doctor chat id is not configured,
part_000 still answers 200 with `alert_sent` equal to the alert decision
(true for `emergency`/`urgent`) and attempts no send at all. -/
theorem C10_alert_sent_reports_decision (cfg : ConfigB) (auth : String)
    (r : RawB) (now : ℕ) (send : SendOutcome)
    (h1 : auth ≠ "") (h2 : auth = "Bearer " ++ cfg.secret)
    (hcfg : cfg.telegramToken = "" ∨ cfg.doctorChat = "") :
    handlerB cfg "POST" auth (some r) now none send
      = ⟨.ok ⟨levelB r, scoreB r, botResponseB (levelB r), alertWantedB r,
          if alertWantedB r then some ("A" ++ toString now) else none⟩,
         none⟩ := by
  have hncfg : ¬ (cfg.telegramToken ≠ "" ∧ cfg.doctorChat ≠ "") := by
    rcases hcfg with h | h <;> simp [h]
  simp only [handlerB]
  rw [if_neg (by simp), if_neg (by push_neg; exact ⟨h1, h2⟩)]
  exact processB_no_telegram cfg r now send hncfg

/-- C10 (witness): the emergency-level report with no Telegram configuration
is answered with `alert_sent = true` and no send attempt. -/
theorem C10_witness :
    (handlerB ⟨"s", "", ""⟩ "POST" "Bearer s" (some rBemer) 0 none .resolves
      = ⟨.ok ⟨levelB rBemer, scoreB rBemer, botResponseB (levelB rBemer),
          alertWantedB rBemer,
          if alertWantedB rBemer then some ("A" ++ toString 0) else none⟩,
         none⟩)
    ∧ alertWantedB rBemer = true :=
  ⟨C10_alert_sent_reports_decision ⟨"s", "", ""⟩ "Bearer s" rBemer 0 .resolves
      (by decide) (by decide) (Or.inl rfl),
   by decide⟩
